import Mathlib

/-!
# Verification of the edu-bricks session / install / manifest core

This development shallowly embeds the core of the edu-bricks repository:

* the `create-ai-sandbox` route (provisioning, demo fallback, bootstrap),
* the `install-packages` route (request normalization, the dependency diff
  executed inside the sandbox, and the background task that drives the
  server-sent event stream), and
* the `get-sandbox-files` route (file enumeration with the size ceiling and
  entry-point resolution).

Remote executions (E2B `runCode` calls) are modelled by parameters giving
their observable outcome (output text, or the exception they raise); all
string manipulation mirrors the JavaScript/Python string operations used by
the source (single-character `split`, first-occurrence `replace`, `trim`,
substring `includes`).
-/

/-! ## Character-list string helpers

The JS/Python string operations are modelled over `List Char` so that all
definitions reduce well in the kernel.  `String.toList`/`String.mk` convert
at the boundary. -/

/-- Does the first list start with the second one (character-wise)? -/
def listStarts : List Char → List Char → Bool
  | _, [] => true
  | [], _ :: _ => false
  | x :: xs, y :: ys => x = y && listStarts xs ys

/-- Does `pat` occur as a contiguous run inside the list?  Models the JS
`String.prototype.includes`. -/
def listFindSub (pat : List Char) : List Char → Bool
  | [] => pat.isEmpty
  | x :: rest => listStarts (x :: rest) pat || listFindSub pat rest

/-- JS `s.includes(pat)`. -/
def strIncludes (s pat : String) : Bool :=
  listFindSub pat.toList s.toList

/-- Replace the first occurrence of `pat` by `repl`; models the JS
`s.replace(pat, repl)` with a plain-string pattern (first occurrence only). -/
def listReplFirst (pat repl : List Char) : List Char → List Char
  | [] => []
  | x :: rest =>
    if listStarts (x :: rest) pat then repl ++ (x :: rest).drop pat.length
    else x :: listReplFirst pat repl rest

/-- JS `s.replace(pat, repl)` for plain-string patterns. -/
def strReplFirst (s pat repl : String) : String :=
  String.mk (listReplFirst pat.toList repl.toList s.toList)

/-- The whitespace recognized by `trim`. -/
def isWs (c : Char) : Bool :=
  c = ' ' || c = '\t' || c = '\n' || c = '\r'

/-- JS `s.trim()` over a character list. -/
def listTrim (s : List Char) : List Char :=
  ((s.dropWhile isWs).reverse.dropWhile isWs).reverse

/-- JS `s.trim()`. -/
def strTrim (s : String) : String :=
  String.mk (listTrim s.toList)

/-- Does the first list end with the second one? -/
def listEnds (s pat : List Char) : Bool :=
  listStarts s.reverse pat.reverse

/-- JS `s.endsWith(pat)` / Python `s.endswith(pat)`. -/
def strEnds (s pat : String) : Bool :=
  listEnds s.toList pat.toList

/-- Split on a single separator character.  Models both the Python
`s.split(c)` (one-character separator) and the JS `s.split(c)`: the result is
never empty, and separators at the ends yield empty pieces. -/
def splitAtChar (c : Char) : List Char → List (List Char)
  | [] => [[]]
  | x :: xs =>
    let r := splitAtChar c xs
    if x = c then [] :: r
    else
      match r with
      | [] => [[x]]
      | h :: t => (x :: h) :: t

/-- First piece of a single-character split; models the Python
`s.split(c)[0]`. -/
def pySplitHead (c : Char) (s : String) : String :=
  String.mk ((splitAtChar c s.toList).headD [])

/-- Deduplication keeping first occurrences, in order; models the JS
`[...new Set(xs)]`. -/
def dedupKeepFirst [DecidableEq α] (seen : List α) : List α → List α
  | [] => []
  | x :: xs =>
    if x ∈ seen then dedupKeepFirst seen xs
    else x :: dedupKeepFirst (x :: seen) xs

/-- JS `xs.join(", ")` as used by the install route. -/
def joinComma : List String → String
  | [] => ""
  | [x] => x
  | x :: y :: ys => x ++ ", " ++ joinComma (y :: ys)

/-! ## Dependency diff of the install route

The `install-packages` background task runs a Python script inside the
sandbox which reads `package.json`, merges `dependencies` and
`devDependencies` into `all_deps`, and partitions the requested names:

```
if pkg.startswith('@'): pkg_name = pkg
else: pkg_name = pkg.split('@')[0]
if pkg_name in all_deps: already_installed.append(pkg_name)
else: need_install.append(pkg)
```
-/

/-- Python `pkg.startswith('@')`. -/
def startsWithAt (s : String) : Bool :=
  match s.toList with
  | c :: _ => c = '@'
  | [] => false

/-- The name a requested package is compared under: a scoped name (leading
`@`) is kept whole, otherwise everything from the first `@` on is dropped. -/
def stripName (pkg : String) : String :=
  if startsWithAt pkg then pkg else pySplitHead '@' pkg

/-- Does `s` contain an `@` at a position after the first character?  A
well-formed dependency-manifest key (a bare or scoped package name, with no
version suffix) never does. -/
def hasLateAt (s : String) : Bool :=
  (s.toList.drop 1).contains '@'

/-- The diff's membership test: the stripped name is looked up in the merged
dependency map (exact-name presence). -/
def isAlreadyInstalled (deps : List String) (pkg : String) : Bool :=
  deps.contains (stripName pkg)

/-- The `need_install` list of the diff script: requested entries (kept verbatim)
whose stripped name is absent from the dependency map. -/
def needInstallOf (deps : List String) (ps : List String) : List String :=
  ps.filter (fun p => !(isAlreadyInstalled deps p))

/-- The `already_installed` list of the diff script: the stripped names of requested
entries present in the dependency map. -/
def alreadyInstalledOf (deps : List String) (ps : List String) : List String :=
  (ps.filter (isAlreadyInstalled deps)).map stripName

/-! ## Install request normalization and pre-stream validation

`POST /api/install-packages` (part_001, lines 487–561): JSON parsing gives a
`packages` field (possibly absent) and an optional `sandboxId`.  The handler
validates `packages`, deduplicates with a `Set`, drops non-string and
blank entries, trims the rest, and only then touches the global sandbox
reference (reading it, and possibly reconnecting). -/

/-- One entry of the JSON `packages` array: a string, or any non-string
value (identified by a tag so that `Set` deduplication is expressible). -/
inductive PkgEntry
  | str (s : String)
  | nonStr (id : Nat)
deriving DecidableEq, Repr

/-- The normalization performed before any sandbox access:
`[...new Set(packages)].filter(pkg => pkg && typeof pkg === 'string' &&
pkg.trim() !== '').map(pkg => pkg.trim())`. -/
def normalizePackages (ps : List PkgEntry) : List String :=
  (dedupKeepFirst [] ps).filterMap fun e =>
    match e with
    | .str s => if s != "" && strTrim s != "" then some (strTrim s) else none
    | .nonStr _ => none

/-- The parsed request body: `packages` is `none` when the field is missing
or null, and `sandboxId` is the optional reconnection id. -/
structure InstallReq where
  packages : Option (List PkgEntry)
  sandboxId : Option String
deriving DecidableEq, Repr

/-- Outcome of the handler before (or instead of) starting the stream. -/
inductive InstallResp
  | errMissingParam
  | errInvalidFormat
  | errNoValid
  | errMissingEnv
  | errReconnect
  | errNotFound
  | stream (validPackages : List String)
deriving DecidableEq, Repr

/-- Which session operations the handler performed: reading
`global.activeSandbox`, attempting `Sandbox.connect`, and writing the
global reference. -/
structure SessionOps where
  readGlobal : Bool
  reconnectTried : Bool
  globalWritten : Bool
deriving DecidableEq, Repr

/-- The `install-packages` handler up to the point where the event stream is
created.  `globalSandbox` is the current `global.activeSandbox` (by id),
`keyOk` the result of `validateE2BApiKey`, and `reconnectOk` whether
`Sandbox.connect` would succeed. -/
def installHandler (req : InstallReq) (globalSandbox : Option String)
    (keyOk : Bool) (reconnectOk : Bool) : InstallResp × SessionOps :=
  match req.packages with
  | none => (.errMissingParam, ⟨false, false, false⟩)
  | some ps =>
    if ps.length = 0 then (.errInvalidFormat, ⟨false, false, false⟩)
    else
      let validPackages := normalizePackages ps
      if validPackages.length = 0 then (.errNoValid, ⟨false, false, false⟩)
      else
        match globalSandbox with
        | some _ => (.stream validPackages, ⟨true, false, false⟩)
        | none =>
          match req.sandboxId with
          | some _ =>
            if !keyOk then (.errMissingEnv, ⟨true, false, false⟩)
            else if reconnectOk then (.stream validPackages, ⟨true, true, true⟩)
            else (.errReconnect, ⟨true, true, false⟩)
          | none => (.errNotFound, ⟨true, false, false⟩)

/-! ## The install background task and its event stream

The task (part_001, lines 583–905) is an async IIFE of shape
`try { … } catch (error) { sendProgress(error event) } finally
{ writer.close() }`.  Inside the `try` it emits progress events and runs
four remote scripts: stopping the dev server, the dependency diff, the
`npm install`, and the dev-server restart.  Remote outcomes are modelled by
`TaskEnv`; the task itself is rendered as the list of primitive actions it
performs, in order. -/

/-- Event types of the progress stream. -/
inductive EventType
  | start | status | info | output | warning | error | success | complete
deriving DecidableEq, Repr

/-- One progress event: its type, message, and the optional structured
payload fields used by the route. -/
structure Event where
  etype : EventType
  message : String
  packages : Option (List String) := none
  installedPackages : Option (List String) := none
  alreadyInstalled : Option (List String) := none
  errorCode : Option String := none
deriving DecidableEq, Repr

/-- Actions the body of the `try` (or the `catch`) can perform.  Note the
body cannot close the writer: `writer.close()` appears only in `finally`. -/
inductive BodyAct
  | emit (e : Event)
  | remote (tag : String)
deriving DecidableEq, Repr

/-- All primitive actions of one task execution, including the final
writer closure. -/
inductive TaskAct
  | emit (e : Event)
  | remote (tag : String)
  | closeWriter
deriving DecidableEq, Repr

/-- Injection of body actions into task actions. -/
def BodyAct.toTask : BodyAct → TaskAct
  | .emit e => .emit e
  | .remote t => .remote t

/-- Outcome of the `npm install` remote execution: the exception it raised,
or the text the sandbox returned (joined stdout). -/
inductive RunResult
  | threw (msg : String)
  | ok (output : String)
deriving DecidableEq, Repr

/-- Observable outcomes of the remote executions performed by one task run.
`deps` is the merged dependency map of the sandbox `package.json`;
`checkOk` is true when the diff script read `package.json` successfully,
the result had the expected structure, and the `NEED_INSTALL:` line parsed
(otherwise the code falls back to installing every requested package).
`stopVite`, `checkRun` and `restartRun` are `some msg` when the
corresponding `runCode` call throws. -/
structure TaskEnv where
  deps : List String
  checkOk : Bool
  stopVite : Option String
  checkRun : Option String
  npmRun : RunResult
  restartRun : Option String
deriving DecidableEq, Repr

/-- The plural suffix of the start message: an `s` exactly when more than
one package is requested. -/
def pluralS (n : Nat) : String :=
  if n > 1 then "s" else ""

/-- Per-line classification of the npm output
(part_001, lines 799–816): stderr marker, dependency-conflict marker,
npm warnings, then plain output. -/
def classifyLine (line : String) : Option Event :=
  if strIncludes line "STDERR:" then
    if strTrim (strReplFirst line "STDERR:" "") != "" &&
        strTrim (strReplFirst line "STDERR:" "") != "undefined" then
      some ⟨.error, strTrim (strReplFirst line "STDERR:" ""),
        none, none, none, none⟩
    else none
  else if strIncludes line "ERESOLVE_ERROR:" then
    some ⟨.warning,
      "Dependency conflict resolved with --legacy-peer-deps: " ++
        strTrim (strReplFirst line "ERESOLVE_ERROR:" ""),
      none, none, none, none⟩
  else if strIncludes line "npm WARN" then
    some ⟨.warning, line, none, none, none, none⟩
  else if strTrim line != "" && !(strIncludes line "undefined") then
    some ⟨.output, line, none, none, none, none⟩
  else none

/-- The events derived line-by-line from the installer output:
`output.split('\n').filter(line => line.trim())`, then the classification
chain. -/
def outputEvents (output : String) : List Event :=
  (((splitAtChar '\n' output.toList).map String.mk).filter
    (fun l => strTrim l != "")).filterMap classifyLine

/-- Take characters up to the first `]`, failing on end of input or a
newline first (the JS `.` does not match newlines). -/
def takeUntilRb : List Char → Option (List Char)
  | [] => none
  | x :: xs =>
    if x = ']' then some []
    else if x = '\n' then none
    else
      match takeUntilRb xs with
      | some r => some (x :: r)
      | none => none

/-- Characters following the first occurrence of `pat`, if any. -/
def afterFirst (pat : List Char) : List Char → Option (List Char)
  | [] => if pat.isEmpty then some [] else none
  | x :: rest =>
    if listStarts (x :: rest) pat then some ((x :: rest).drop pat.length)
    else afterFirst pat rest

/-- The single-quote character, written by code to avoid a bare apostrophe
literal. -/
def quoteCh : Char := Char.ofNat 39

/-- Extraction of the verified package list from the npm output:
`output.match(/Verified installed packages: \[(.*?)\]/)`, then
`split(',')`, `trim`, strip quotes, drop empties (part_001, lines 819–827).
Modelled for outputs where the marker occurs at most once, as the diff
script prints it. -/
def installedFromOutput (output : String) : List String :=
  match afterFirst ("Verified installed packages: [").toList output.toList with
  | none => []
  | some rest =>
    match takeUntilRb rest with
    | none => []
    | some inner =>
      (((splitAtChar ',' inner).map
          (fun p => String.mk ((listTrim p).filter (fun c => c != quoteCh)))).filter
        (fun p => p.length > 0))

/-- The body of the task's `try` block: the actions performed, and the
message of the uncaught exception if one escapes. -/
def taskBody (validPackages : List String) (env : TaskEnv) :
    List BodyAct × Option String :=
  let a0 : List BodyAct :=
    [.emit ⟨.start,
        "Installing " ++ toString validPackages.length ++ " package" ++
          pluralS validPackages.length ++ "...",
        some validPackages, none, none, none⟩,
     .emit ⟨.status, "Stopping development server...", none, none, none, none⟩,
     .remote "stopVite"]
  match env.stopVite with
  | some m => (a0, some m)
  | none =>
  let a1 := a0 ++
    [.emit ⟨.status, "Checking installed packages...", none, none, none, none⟩,
     .remote "check"]
  match env.checkRun with
  | some m => (a1, some m)
  | none =>
  let packagesToInstall :=
    if env.checkOk then needInstallOf env.deps validPackages else validPackages
  if packagesToInstall.isEmpty then
    (a1 ++ [.emit ⟨.success, "All packages are already installed",
        none, some [], some validPackages, none⟩], none)
  else
  let a2 := a1 ++
    [.emit ⟨.info,
        "Installing " ++ toString packagesToInstall.length ++
          " new package(s): " ++ joinComma packagesToInstall,
        none, none, none, none⟩,
     .remote "npmInstall"]
  match env.npmRun with
  | .threw m =>
    (a2 ++ [.emit ⟨.error, "npm install failed: " ++ m,
        some packagesToInstall, none, none, none⟩], none)
  | .ok output =>
    let installedPackages := installedFromOutput output
    let verdict : BodyAct :=
      if installedPackages.length > 0 then
        .emit ⟨.success, "Successfully installed: " ++ joinComma installedPackages,
          none, some installedPackages, none, none⟩
      else
        .emit ⟨.error, "Failed to verify package installation",
          none, none, none, none⟩
    let a3 := a2 ++ (outputEvents output).map BodyAct.emit ++
      [verdict,
       .emit ⟨.status, "Restarting development server...", none, none, none, none⟩,
       .remote "restart"]
    match env.restartRun with
    | some m => (a3, some m)
    | none =>
      (a3 ++ [.emit ⟨.complete,
          "Package installation complete and dev server restarted!",
          none, some installedPackages, none, none⟩], none)

/-- One full task execution: the `try` body, the `catch` converting an
uncaught exception into a terminal error event, and the `finally` closing
the writer. -/
def runTask (validPackages : List String) (env : TaskEnv) : List TaskAct :=
  let be := taskBody validPackages env
  let handled : List BodyAct :=
    be.1 ++
      (match be.2 with
       | some m => [.emit ⟨.error, m, none, none, none, some "PACKAGE_INSTALL_ERROR"⟩]
       | none => [])
  handled.map BodyAct.toTask ++ [.closeWriter]

/-- The event carried by a task action, if any. -/
def TaskAct.eventOf : TaskAct → Option Event
  | .emit e => some e
  | _ => none

/-- The events of one task execution, in emission order. -/
def taskEvents (validPackages : List String) (env : TaskEnv) : List Event :=
  (runTask validPackages env).filterMap TaskAct.eventOf

/-- Whether the `npm install` script was submitted to the sandbox. -/
def npmInvoked (validPackages : List String) (env : TaskEnv) : Bool :=
  (runTask validPackages env).contains (.remote "npmInstall")

/-! ## The create-ai-sandbox route

`POST /api/create-ai-sandbox` (part_001, lines 16–463).  The route first
checks demo mode (`DEMO_MODE`, a missing `E2B_API_KEY`, or Netlify), then
validates the key, kills any prior sandbox (best-effort), clears the
file tracker, creates the E2B sandbox (falling back to a demo sandbox on
creation failure), and bootstraps the project: setup script (fatal on
failure), `npm install` (caught, best-effort), Vite start (caught,
best-effort), and a CSS-rebuild nudge which is NOT wrapped in its own
try/catch — its failure reaches the route's outer catch. -/

/-- A session held in `global.activeSandbox`: a real E2B sandbox or a demo
mock. -/
inductive Sess
  | real (id : String)
  | demo (id : String)
deriving DecidableEq, Repr

/-- Is the session a demo mock? -/
def Sess.demoTag : Sess → Bool
  | .real _ => false
  | .demo _ => true

/-- The process-wide globals touched by the route: the single session slot
and the file tracker (`none` models an undefined `global.existingFiles`). -/
structure SandboxGlobals where
  activeSandbox : Option Sess
  existingFiles : Option (List String)
deriving DecidableEq, Repr

/-- External conditions of one create call.  `hasApiKey` is JS truthiness of
`process.env.E2B_API_KEY`; `keyValid` the result of `validateE2BApiKey`;
the `…Fails` flags say whether the corresponding step throws; `killFails`
whether killing the prior sandbox throws (always caught). -/
structure CreateEnv where
  demoMode : Bool
  netlify : Bool
  hasApiKey : Bool
  keyValid : Bool
  e2bFails : Bool
  setupFails : Bool
  installFails : Bool
  viteFails : Bool
  nudgeFails : Bool
  killFails : Bool
  newId : String
deriving DecidableEq, Repr

/-- The route's possible responses. -/
inductive CreateResp
  | demoJson (isDemo : Bool)
  | errMissingEnv
  | errSetupFailed
  | errCreationFailed
  | okCreated
deriving DecidableEq, Repr

/-- Side observations of one create call: how many times the prior session's
kill was attempted, whether the freshly created sandbox was killed during
cleanup, and whether the file tracker was cleared (or freshly created). -/
structure CreateStats where
  priorKillAttempts : Nat
  newKillAttempted : Bool
  trackerCleared : Bool
deriving DecidableEq, Repr

/-- The files registered in `global.existingFiles` on the success path. -/
def initialFiles : List String :=
  ["src/App.jsx", "src/main.jsx", "src/index.css", "index.html",
   "package.json", "vite.config.js", "tailwind.config.js", "postcss.config.js"]

/-- One execution of the create route against the globals. -/
def createSandbox (env : CreateEnv) (g : SandboxGlobals) :
    CreateResp × SandboxGlobals × CreateStats :=
  if env.demoMode || !env.hasApiKey || env.netlify then
    (.demoJson true,
     { g with activeSandbox := some (.demo ("demo-" ++ env.newId)) },
     ⟨0, false, false⟩)
  else if !env.keyValid then
    (.errMissingEnv, g, ⟨0, false, false⟩)
  else
    let kills := if g.activeSandbox.isSome then 1 else 0
    let g2 : SandboxGlobals := { activeSandbox := none, existingFiles := some [] }
    if env.e2bFails then
      (.demoJson true,
       { g2 with activeSandbox := some (.demo ("demo-fallback-" ++ env.newId)) },
       ⟨kills, false, true⟩)
    else if env.setupFails then
      (.errSetupFailed, g2, ⟨kills, true, true⟩)
    else if env.nudgeFails then
      (.errCreationFailed, g2, ⟨kills, true, true⟩)
    else
      (.okCreated,
       { activeSandbox := some (.real env.newId),
         existingFiles := some initialFiles },
       ⟨kills, false, true⟩)

/-- A sequence of create calls, returning the final globals and the
responses in order. -/
def runCreates : List CreateEnv → SandboxGlobals → SandboxGlobals × List CreateResp
  | [], g => (g, [])
  | e :: es, g =>
    let r := createSandbox e g
    let rest := runCreates es r.2.1
    (rest.1, r.1 :: rest.2)

/-! ## The get-sandbox-files route

`GET /api/get-sandbox-files` (route.ts).  A Python script walks the tree,
skips `node_modules`/`.git`/`dist`/`build`, reads files with a recognized
extension, and drops any file whose content is 50000 characters or more,
recording a warning instead.  The route then builds the manifest and
resolves the entry point while iterating the returned files in enumeration
order. -/

/-- The recognized extension set of `get_files_content`. -/
def hasExt (name : String) : Bool :=
  [".jsx", ".js", ".tsx", ".ts", ".css", ".json"].any (fun e => strEnds name e)

/-- One file met during the remote enumeration: its path relative to the
project root, its content, and the error message if reading it threw. -/
structure RemoteFile where
  relativePath : String
  content : String
  readErr : Option String := none
deriving DecidableEq, Repr

/-- The size-ceiling warning recorded for a skipped file. -/
def sizeMsg (f : RemoteFile) : String :=
  "File " ++ f.relativePath ++ " too large (" ++ toString f.content.length ++
    " bytes), skipped"

/-- What one enumerated file contributes to the `(files, errors)` pair: the
extension gate, the per-file read try/except, and the size ceiling
(`len(content) < 50000`). -/
def fileEntryOf (f : RemoteFile) : List (String × String) × List String :=
  if hasExt f.relativePath then
    match f.readErr with
    | some e => ([], ["Error reading " ++ f.relativePath ++ ": " ++ e])
    | none =>
      if f.content.length < 50000 then ([(f.relativePath, f.content)], [])
      else ([], [sizeMsg f])
  else ([], [])

/-- The `get_files_content` helper: the `(files, errors)` pair accumulated over the
enumerated tree, in enumeration order. -/
def get_files_content : List RemoteFile → List (String × String) × List String
  | [] => ([], [])
  | f :: rest =>
    ((fileEntryOf f).1 ++ (get_files_content rest).1,
     (fileEntryOf f).2 ++ (get_files_content rest).2)

/-- The route's response, as far as the claims are concerned: the success
flag of the envelope, the returned file map, and the `warnings` field
(`undefined` unless errors were recorded). -/
structure FilesResp where
  ok : Bool
  files : List (String × String)
  warnings : Option (List String)
deriving DecidableEq, Repr

/-- The route given the current session slot and the enumerated tree:
without a session it returns the not-found error envelope, otherwise the
success envelope carrying the files and warnings. -/
def getSandboxFiles (globalSandbox : Option Sess) (tree : List RemoteFile) :
    FilesResp :=
  match globalSandbox with
  | none => { ok := false, files := [], warnings := none }
  | some _ =>
    let fe := get_files_content tree
    { ok := true
      files := fe.1
      warnings := if fe.2.length > 0 then some fe.2 else none }

/-- Does a relative path match the JS-file test `/\.(jsx?|tsx?)$/`? -/
def isJsFile (p : String) : Bool :=
  strEnds p ".js" || strEnds p ".jsx" || strEnds p ".ts" || strEnds p ".tsx"

/-- Absolute sandbox path of a relative path. -/
def fullPath (relativePath : String) : String :=
  "/home/user/app/" ++ relativePath

/-- One step of entry-point resolution while iterating the file map
(route.ts, lines 183–191): `src/main.jsx` and `src/index.jsx`
unconditionally overwrite the entry point; `src/App.jsx` and `App.jsx` only
set it when it is still the empty string. -/
def entryStep (acc : String) (relativePath : String) : String :=
  if isJsFile relativePath then
    let acc1 :=
      if relativePath = "src/main.jsx" || relativePath = "src/index.jsx" then
        fullPath relativePath
      else acc
    if relativePath = "src/App.jsx" || relativePath = "App.jsx" then
      (if acc1 = "" then fullPath relativePath else acc1)
    else acc1
  else acc

/-- The entry point after iterating the returned files in enumeration
order, starting from the manifest's initial empty entry point. -/
def computeEntryPoint (relativePaths : List String) : String :=
  relativePaths.foldl entryStep ""

/-! ## Theorems

One theorem per claim of the specification, with closed witnesses for
theorems carrying hypotheses and closed counterexamples for corrected
claims. -/

/-- C10: in the dependency diff, a non-scoped requested name is compared
after dropping everything from the first `@`, while a scoped name (leading
`@`) is compared verbatim; hence requesting `pkg@1.2.3` when `pkg` is a
dependency counts as already installed, and a scoped request carrying a
version suffix (an `@` after the first character) is never counted as
already installed when the dependency keys are well-formed package names
(no `@` after their first character). -/
theorem c10_version_suffix_diff (deps : List String) (pkg : String)
    (hdep : "pkg" ∈ deps)
    (hscoped : startsWithAt pkg = true)
    (hver : hasLateAt pkg = true)
    (hkeys : ∀ d ∈ deps, hasLateAt d = false) :
    stripName "pkg@1.2.3" = "pkg"
    ∧ isAlreadyInstalled deps "pkg@1.2.3" = true
    ∧ needInstallOf deps ["pkg@1.2.3"] = []
    ∧ stripName pkg = pkg
    ∧ isAlreadyInstalled deps pkg = false
    ∧ needInstallOf deps [pkg] = [pkg] := by
  have hstrip : stripName "pkg@1.2.3" = "pkg" := by decide
  have h1 : isAlreadyInstalled deps "pkg@1.2.3" = true := by
    simp [isAlreadyInstalled, hstrip, hdep]
  have hspkg : stripName pkg = pkg := by simp [stripName, hscoped]
  have hnot : pkg ∉ deps := by
    intro hmem
    have := hkeys pkg hmem
    rw [hver] at this
    exact Bool.false_ne_true this.symm
  have h2 : isAlreadyInstalled deps pkg = false := by
    simp [isAlreadyInstalled, hspkg]
    exact hnot
  refine ⟨hstrip, h1, ?_, hspkg, h2, ?_⟩
  · simp [needInstallOf, h1]
  · simp [needInstallOf, h2]

/-- C10 witness: concrete diff of `pkg@1.2.3` and `@scope/ui@2.0.0` against
the dependency keys `pkg` and `@scope/ui`. -/
theorem c10_version_suffix_diff_witness :
    stripName "pkg@1.2.3" = "pkg"
    ∧ isAlreadyInstalled ["pkg", "@scope/ui"] "pkg@1.2.3" = true
    ∧ needInstallOf ["pkg", "@scope/ui"] ["pkg@1.2.3"] = []
    ∧ stripName "@scope/ui@2.0.0" = "@scope/ui@2.0.0"
    ∧ isAlreadyInstalled ["pkg", "@scope/ui"] "@scope/ui@2.0.0" = false
    ∧ needInstallOf ["pkg", "@scope/ui"] ["@scope/ui@2.0.0"] = ["@scope/ui@2.0.0"] :=
  c10_version_suffix_diff ["pkg", "@scope/ui"] "@scope/ui@2.0.0"
    (by decide) (by decide) (by decide) (by decide)

/-- C9: a request whose package list normalizes (dedup, trim, drop
non-string and blank entries) to the empty list is rejected with an
invalid-request error, and no session operation (global read, reconnect,
global write) is performed. -/
theorem c9_empty_normalization_rejected (ps : List PkgEntry) (sid : Option String)
    (g : Option String) (keyOk reconnectOk : Bool)
    (hempty : normalizePackages ps = []) :
    ((installHandler ⟨some ps, sid⟩ g keyOk reconnectOk).1 = .errInvalidFormat
      ∨ (installHandler ⟨some ps, sid⟩ g keyOk reconnectOk).1 = .errNoValid)
    ∧ (installHandler ⟨some ps, sid⟩ g keyOk reconnectOk).2 = ⟨false, false, false⟩ := by
  by_cases h : ps.length = 0 <;> simp [installHandler, h, hempty]

/-- C9 witness: a list of one blank string and one non-string entry
normalizes to the empty list and is rejected without session access. -/
theorem c9_empty_normalization_rejected_witness :
    ((installHandler ⟨some [.str "  ", .nonStr 0], some "sb"⟩ (some "live") true true).1
        = .errInvalidFormat
      ∨ (installHandler ⟨some [.str "  ", .nonStr 0], some "sb"⟩ (some "live") true true).1
        = .errNoValid)
    ∧ (installHandler ⟨some [.str "  ", .nonStr 0], some "sb"⟩ (some "live") true true).2
        = ⟨false, false, false⟩ :=
  c9_empty_normalization_rejected [.str "  ", .nonStr 0] (some "sb")
    (some "live") true true (by decide)

/-- Any pair contributed to the file map by one file is keyed by that
file's relative path. -/
theorem fileEntry_key (f : RemoteFile) (pr : String × String)
    (h : pr ∈ (fileEntryOf f).1) : pr.1 = f.relativePath := by
  unfold fileEntryOf at h
  split at h
  · split at h
    · simp at h
    · split at h
      · simp at h; simp [h]
      · simp at h
  · simp at h

/-- A readable file with a recognized extension at or above the size
ceiling contributes no map entry and exactly its skip warning. -/
theorem fileEntry_big (f : RemoteFile) (hext : hasExt f.relativePath = true)
    (hread : f.readErr = none) (hbig : 50000 ≤ f.content.length) :
    fileEntryOf f = ([], [sizeMsg f]) := by
  unfold fileEntryOf
  rw [hread]
  simp [hext, Nat.not_lt.mpr hbig]

/-- Every key of the accumulated file map is the relative path of an
enumerated file. -/
theorem files_keys_sub (tree : List RemoteFile) :
    ∀ pr ∈ (get_files_content tree).1, pr.1 ∈ tree.map RemoteFile.relativePath := by
  induction tree with
  | nil => simp [get_files_content]
  | cons f rest ih =>
    intro pr hpr
    simp only [get_files_content, List.mem_append] at hpr
    rcases hpr with h | h
    · simp [fileEntry_key f pr h]
    · simp [ih pr h]

/-- C8: a readable enumerated file with a recognized extension whose
content reaches the 50000-character ceiling is absent from the returned
file map, its skip message is recorded, and the route still answers with a
success envelope whose warnings carry the recorded messages. -/
theorem c8_size_ceiling (s : Sess) (tree : List RemoteFile) (f : RemoteFile)
    (hmem : f ∈ tree) (hext : hasExt f.relativePath = true)
    (hread : f.readErr = none) (hbig : 50000 ≤ f.content.length)
    (hnodup : (tree.map RemoteFile.relativePath).Nodup) :
    f.relativePath ∉ (get_files_content tree).1.map Prod.fst
    ∧ sizeMsg f ∈ (get_files_content tree).2
    ∧ (getSandboxFiles (some s) tree).ok = true
    ∧ (getSandboxFiles (some s) tree).warnings = some (get_files_content tree).2 := by
  have key : f.relativePath ∉ (get_files_content tree).1.map Prod.fst
      ∧ sizeMsg f ∈ (get_files_content tree).2 := by
    induction tree with
    | nil => simp at hmem
    | cons f0 rest ih =>
      have hnd := hnodup
      simp only [List.map_cons, List.nodup_cons] at hnd
      rcases List.mem_cons.mp hmem with heq | hrest
      · subst heq
        constructor
        · simp only [get_files_content, fileEntry_big f hext hread hbig,
            List.nil_append, List.map_append, List.mem_append]
          intro hc
          rcases List.mem_map.mp hc with ⟨pr, hpr, hfst⟩
          have := files_keys_sub rest pr hpr
          rw [hfst] at this
          exact hnd.1 this
        · simp [get_files_content, fileEntry_big f hext hread hbig]
      · have ihr := ih hrest hnd.2
        constructor
        · simp only [get_files_content, List.map_append, List.mem_append]
          intro hc
          rcases hc with hc | hc
          · rcases List.mem_map.mp hc with ⟨pr, hpr, hfst⟩
            have hk := fileEntry_key f0 pr hpr
            rw [hk] at hfst
            have : f.relativePath ∈ rest.map RemoteFile.relativePath :=
              List.mem_map.mpr ⟨f, hrest, rfl⟩
            rw [← hfst] at this
            exact hnd.1 this
          · exact ihr.1 hc
        · simp only [get_files_content, List.mem_append]
          exact Or.inr ihr.2
  have hwarn : (get_files_content tree).2.length > 0 :=
    List.length_pos.mpr (List.ne_nil_of_mem key.2)
  refine ⟨key.1, key.2, ?_, ?_⟩
  · simp [getSandboxFiles]
  · simp [getSandboxFiles, hwarn]

/-- The oversized stylesheet used by the C8 witness: 50000 characters. -/
def bigCss : RemoteFile := ⟨"src/big.css", String.mk (List.replicate 50000 'x'), none⟩

/-- The two-file tree used by the C8 witness. -/
def treeC8 : List RemoteFile := [⟨"src/App.jsx", "function App", none⟩, bigCss]

/-- C8 witness: in a two-file tree whose stylesheet holds 50000 characters,
the stylesheet is skipped with a warning and the response still succeeds. -/
theorem c8_size_ceiling_witness :
    bigCss.relativePath ∉ (get_files_content treeC8).1.map Prod.fst
    ∧ sizeMsg bigCss ∈ (get_files_content treeC8).2
    ∧ (getSandboxFiles (some (.real "sb")) treeC8).ok = true
    ∧ (getSandboxFiles (some (.real "sb")) treeC8).warnings
        = some (get_files_content treeC8).2 := by
  have hlen : 50000 ≤ bigCss.content.length := by
    rw [show bigCss.content.length = (List.replicate 50000 'x').length from rfl,
      List.length_replicate]
  exact c8_size_ceiling (.real "sb") treeC8 bigCss (by simp [treeC8]) (by decide)
    rfl hlen (by simp [treeC8, bigCss])

/-- The two conventional filenames that unconditionally overwrite the entry
point. -/
def isMainOrIndex (p : String) : Bool :=
  p = "src/main.jsx" || p = "src/index.jsx"

/-- An absolute sandbox path is never the empty string. -/
theorem fullPath_ne_empty (p : String) : fullPath p ≠ "" := by
  intro h
  have h2 : (fullPath p).length = 0 := by rw [h]; rfl
  rw [fullPath, String.length_append] at h2
  have h3 : ("/home/user/app/" : String).length = 15 := by decide
  omega

/-- Files other than `src/main.jsx` and `src/index.jsx` never change a
non-empty entry point. -/
theorem entry_no_main (paths : List String) (acc : String)
    (hacc : acc ≠ "")
    (hnone : paths.filter isMainOrIndex = []) :
    paths.foldl entryStep acc = acc := by
  induction paths generalizing acc with
  | nil => rfl
  | cons p rest ih =>
    rw [List.filter_cons] at hnone
    by_cases hp : isMainOrIndex p
    · simp [hp] at hnone
    · have hstep : entryStep acc p = acc := by
        unfold entryStep
        unfold isMainOrIndex at hp
        simp only [Bool.or_eq_true, decide_eq_true_eq] at hp
        push_neg at hp
        simp [hp.1, hp.2, hacc]
      rw [List.foldl_cons, hstep]
      exact ih acc hacc (by simpa [hp] using hnone)

/-- The entry fold resolves to the last-enumerated occurrence of
`src/main.jsx` or `src/index.jsx`, from any accumulator. -/
theorem entry_last_main (paths : List String) (acc m : String)
    (hlast : (paths.filter isMainOrIndex).getLast? = some m) :
    paths.foldl entryStep acc = fullPath m := by
  induction paths generalizing acc with
  | nil => simp at hlast
  | cons p rest ih =>
    rw [List.filter_cons] at hlast
    by_cases hrest : rest.filter isMainOrIndex = []
    · by_cases hp : isMainOrIndex p
      · rw [if_pos hp, hrest] at hlast
        simp at hlast
        subst hlast
        have hpm : p = "src/main.jsx" ∨ p = "src/index.jsx" := by
          unfold isMainOrIndex at hp
          simpa using hp
        have hstep : entryStep acc p = fullPath p := by
          have hjs : isJsFile p = true := by
            rcases hpm with h | h <;> subst h <;> decide
          unfold entryStep
          rcases hpm with h | h <;> subst h <;> simp [hjs]
        rw [List.foldl_cons, hstep]
        exact entry_no_main rest (fullPath p) (fullPath_ne_empty p) hrest
      · rw [if_neg hp, hrest] at hlast
        simp at hlast
    · have hlast2 : (rest.filter isMainOrIndex).getLast? = some m := by
        by_cases hp : isMainOrIndex p
        · rw [if_pos hp] at hlast
          obtain ⟨q, t, hqt⟩ : ∃ q t, rest.filter isMainOrIndex = q :: t := by
            rcases hq : rest.filter isMainOrIndex with _ | ⟨q, t⟩
            · exact absurd hq hrest
            · exact ⟨q, t, rfl⟩
          rw [hqt] at hlast ⊢
          rwa [List.getLast?_cons_cons] at hlast
        · rwa [if_neg hp] at hlast
      rw [List.foldl_cons]
      exact ih (entryStep acc p) hlast2

/-- C6 counterexample: the same two conventional entry filenames, enumerated
in the two possible orders, give different entry points — resolution is not
a fixed priority independent of enumeration order, the last-enumerated of
`src/main.jsx` and `src/index.jsx` wins. -/
theorem c6_counterexample :
    computeEntryPoint ["src/main.jsx", "src/index.jsx"] = "/home/user/app/src/index.jsx"
    ∧ computeEntryPoint ["src/index.jsx", "src/main.jsx"] = "/home/user/app/src/main.jsx"
    ∧ List.Perm ["src/main.jsx", "src/index.jsx"] ["src/index.jsx", "src/main.jsx"]
    ∧ computeEntryPoint ["src/main.jsx", "src/index.jsx"] ≠
        computeEntryPoint ["src/index.jsx", "src/main.jsx"] := by
  refine ⟨by decide, by decide, List.Perm.swap _ _ _, by decide⟩

/-- C6 amended: whenever at least one of `src/main.jsx` and `src/index.jsx`
is enumerated, the manifest entry point is the absolute path of the
last-enumerated one of them — so with both present the later in enumeration
order wins, not a fixed priority. -/
theorem c6_entry_point_last_wins (paths : List String) (m : String)
    (hlast : (paths.filter isMainOrIndex).getLast? = some m) :
    computeEntryPoint paths = fullPath m :=
  entry_last_main paths "" m hlast

/-- C6 witness: a tree enumerating `src/App.jsx`, then `src/main.jsx`, then
`src/index.jsx` resolves the entry point to `src/index.jsx`. -/
theorem c6_entry_point_last_wins_witness :
    computeEntryPoint ["src/App.jsx", "src/main.jsx", "src/index.jsx"]
      = fullPath "src/index.jsx" :=
  c6_entry_point_last_wins ["src/App.jsx", "src/main.jsx", "src/index.jsx"]
    "src/index.jsx" (by decide)

/-- Body actions never close the writer: `writer.close()` appears only in
the `finally` block. -/
theorem bodyAct_toTask_ne_close (b : BodyAct) : b.toTask ≠ .closeWriter := by
  cases b <;> simp [BodyAct.toTask]

/-- Projecting the events back out of a run of emitted events. -/
theorem eventOf_map_emit (l : List Event) :
    l.filterMap (TaskAct.eventOf ∘ BodyAct.toTask ∘ BodyAct.emit) = l := by
  induction l with
  | nil => rfl
  | cons e rest ih =>
    simp only [List.filterMap_cons, Function.comp_apply, BodyAct.toTask,
      TaskAct.eventOf, ih]

/-- C4: for every execution of the install background task — whatever the
remote outcomes, including thrown remote calls and npm failures — the
writer is closed exactly once, as the task's final action. -/
theorem c4_stream_closure (vp : List String) (env : TaskEnv) :
    (runTask vp env).getLast? = some .closeWriter
    ∧ (runTask vp env).count .closeWriter = 1 := by
  constructor
  · simp [runTask, List.getLast?_concat]
  · simp only [runTask]
    rw [List.count_append]
    have h0 : ∀ l : List BodyAct,
        (l.map BodyAct.toTask).count TaskAct.closeWriter = 0 := by
      intro l
      rw [List.count_eq_zero]
      simp only [List.mem_map, not_exists]
      intro b hb
      exact bodyAct_toTask_ne_close b hb.2
    rw [h0]
    rfl

/-- C1 counterexample: requesting `react` when `react` is already a
dependency yields the events `start, status, status, success` and the task
stops — no `complete` event is ever emitted on the idempotent path, against
the claimed `success` followed by `complete`. -/
theorem c1_counterexample :
    (taskEvents ["react"] ⟨["react"], true, none, none, .ok "", none⟩).map Event.etype
      = [.start, .status, .status, .success]
    ∧ .complete ∉
        (taskEvents ["react"] ⟨["react"], true, none, none, .ok "", none⟩).map
          Event.etype := by
  constructor <;> decide

/-- C1 amended: when every normalized requested package is already present
in the dependency manifest (the diff's needs-install list is empty), the
stream is exactly `start`, two `status` events, and a single `success`
event reporting zero installed packages; the npm installer is never
invoked, and the task then closes the writer without emitting `complete`. -/
theorem c1_idempotent_amended (vp deps : List String) (npm : RunResult)
    (hall : needInstallOf deps vp = []) :
    taskEvents vp ⟨deps, true, none, none, npm, none⟩ =
      [⟨.start, "Installing " ++ toString vp.length ++ " package" ++
          pluralS vp.length ++ "...", some vp, none, none, none⟩,
       ⟨.status, "Stopping development server...", none, none, none, none⟩,
       ⟨.status, "Checking installed packages...", none, none, none, none⟩,
       ⟨.success, "All packages are already installed", none, some [], some vp, none⟩]
    ∧ npmInvoked vp ⟨deps, true, none, none, npm, none⟩ = false
    ∧ (runTask vp ⟨deps, true, none, none, npm, none⟩).getLast? = some .closeWriter := by
  refine ⟨?_, ?_, ?_⟩
  · simp [taskEvents, runTask, taskBody, hall, BodyAct.toTask, TaskAct.eventOf]
  · simp [npmInvoked, runTask, taskBody, hall, BodyAct.toTask]
  · simp [runTask, List.getLast?_concat]

/-- C1 witness: the idempotent scenario with `react` requested and already
installed. -/
theorem c1_idempotent_amended_witness :
    taskEvents ["react"] ⟨["react"], true, none, none, .ok "", none⟩ =
      [⟨.start, "Installing " ++ toString (["react"] : List String).length ++
          " package" ++ pluralS (["react"] : List String).length ++ "...",
          some ["react"], none, none, none⟩,
       ⟨.status, "Stopping development server...", none, none, none, none⟩,
       ⟨.status, "Checking installed packages...", none, none, none, none⟩,
       ⟨.success, "All packages are already installed", none, some [],
          some ["react"], none⟩]
    ∧ npmInvoked ["react"] ⟨["react"], true, none, none, .ok "", none⟩ = false
    ∧ (runTask ["react"] ⟨["react"], true, none, none, .ok "", none⟩).getLast?
        = some .closeWriter :=
  c1_idempotent_amended ["react"] ["react"] (.ok "") (by decide)

/-- A classified npm-output line only ever yields an error, warning or
output event. -/
theorem classifyLine_kinds (line : String) (e : Event)
    (h : classifyLine line = some e) :
    e.etype = .error ∨ e.etype = .warning ∨ e.etype = .output := by
  unfold classifyLine at h
  split at h
  · split at h
    · exact Or.inl (by cases h; rfl)
    · cases h
  · split at h
    · exact Or.inr (Or.inl (by cases h; rfl))
    · split at h
      · exact Or.inr (Or.inl (by cases h; rfl))
      · split at h
        · exact Or.inr (Or.inr (by cases h; rfl))
        · cases h

/-- Installer-output-derived events are only errors, warnings and outputs. -/
theorem outputEvents_kinds (output : String) :
    ∀ e ∈ outputEvents output,
      e.etype = .error ∨ e.etype = .warning ∨ e.etype = .output := by
  intro e he
  unfold outputEvents at he
  rcases List.mem_filterMap.mp he with ⟨l, _, hcl⟩
  exact classifyLine_kinds l e hcl

/-- A single-quote string, used to render the Python list repr in the
concrete installer output. -/
def quoteS : String := String.mk [quoteCh]

/-- A concrete installer output for an `npm install axios` run, as the
install script prints it: command echo, npm output, verification lines and
the status marker. -/
def c5Output : String :=
  "Running command: npm install --legacy-peer-deps axios\n" ++
  "added 1 package in 2s\n" ++
  "\nInstallation completed with code: 0\n" ++
  "✓ Verified axios\n" ++
  "\nVerified installed packages: [" ++ quoteS ++ "axios" ++ quoteS ++ "]\n" ++
  "Failed packages: []\n" ++
  "INSTALL_STATUS:SUCCESS:0"

/-- The task environment of the concrete `[react, axios]` scenario: `react`
already a dependency, all remote calls succeed, npm returns `c5Output`. -/
def c5Env : TaskEnv := ⟨["react"], true, none, none, .ok c5Output, none⟩

/-- C5 counterexample: installing `[react, axios]` with `react` present and
`axios` missing emits `start, status, status, info, output…, success,
status, complete` — an additional `status` event (the dev-server restart)
stands between `success` and `complete`, so the claimed sequence ending
`… success, complete` is not the emitted one. -/
theorem c5_counterexample :
    (taskEvents ["react", "axios"] c5Env).map Event.etype =
      [.start, .status, .status, .info, .output, .output, .output, .output,
       .output, .output, .output, .success, .status, .complete]
    ∧ (taskEvents ["react", "axios"] c5Env).map Event.etype ≠
      [.start, .status, .status, .info, .output, .output, .output, .output,
       .output, .output, .output, .success, .complete] := by
  constructor <;> decide

/-- C5 amended: installing `[A, B]` with A already present and B missing
emits, strictly in order, `start` (both packages), `status` (stopping the
dev server), `status` (checking the diff), `info` naming only B, the
installer-output-derived events (only output/warning/error), `success`
listing `[B]`, a `status` announcing the dev-server restart, and finally
`complete`. -/
theorem c5_event_order_amended (a b output : String) (deps : List String)
    (ha : isAlreadyInstalled deps a = true)
    (hb : isAlreadyInstalled deps b = false)
    (hver : installedFromOutput output = [b]) :
    taskEvents [a, b] ⟨deps, true, none, none, .ok output, none⟩ =
      [⟨.start, "Installing 2 packages...", some [a, b], none, none, none⟩,
       ⟨.status, "Stopping development server...", none, none, none, none⟩,
       ⟨.status, "Checking installed packages...", none, none, none, none⟩,
       ⟨.info, "Installing 1 new package(s): " ++ b, none, none, none, none⟩]
      ++ outputEvents output ++
      [⟨.success, "Successfully installed: " ++ b, none, some [b], none, none⟩,
       ⟨.status, "Restarting development server...", none, none, none, none⟩,
       ⟨.complete, "Package installation complete and dev server restarted!",
          none, some [b], none, none⟩]
    ∧ (∀ e ∈ outputEvents output,
        e.etype = .error ∨ e.etype = .warning ∨ e.etype = .output) := by
  have hneed : needInstallOf deps [a, b] = [b] := by
    simp [needInstallOf, List.filter, ha, hb]
  refine ⟨?_, outputEvents_kinds output⟩
  simp [taskEvents, runTask, taskBody, hneed, hver, BodyAct.toTask,
    TaskAct.eventOf, joinComma, List.filterMap_append, eventOf_map_emit,
    show ("Installing " ++ toString (2 : Nat) ++ " package" ++ pluralS 2 ++ "..."
      : String) = "Installing 2 packages..." from by decide,
    show ("Installing " ++ toString (1 : Nat) ++ " new package(s): "
      : String) = "Installing 1 new package(s): " from by decide]

/-- C5 witness: the concrete `[react, axios]` scenario against `c5Output`. -/
theorem c5_event_order_amended_witness :
    taskEvents ["react", "axios"] ⟨["react"], true, none, none, .ok c5Output, none⟩ =
      [⟨.start, "Installing 2 packages...", some ["react", "axios"], none, none, none⟩,
       ⟨.status, "Stopping development server...", none, none, none, none⟩,
       ⟨.status, "Checking installed packages...", none, none, none, none⟩,
       ⟨.info, "Installing 1 new package(s): " ++ "axios", none, none, none, none⟩]
      ++ outputEvents c5Output ++
      [⟨.success, "Successfully installed: " ++ "axios", none, some ["axios"], none, none⟩,
       ⟨.status, "Restarting development server...", none, none, none, none⟩,
       ⟨.complete, "Package installation complete and dev server restarted!",
          none, some ["axios"], none, none⟩]
    ∧ (∀ e ∈ outputEvents c5Output,
        e.etype = .error ∨ e.etype = .warning ∨ e.etype = .output) :=
  c5_event_order_amended "react" "axios" c5Output ["react"]
    (by decide) (by decide) (by decide)

/-- A create call ending in a success or demo response always leaves a
session installed. -/
theorem createSandbox_live_or_demo (e : CreateEnv) (g : SandboxGlobals)
    (h : (createSandbox e g).1 = .okCreated ∨ (createSandbox e g).1 = .demoJson true) :
    (createSandbox e g).2.1.activeSandbox.isSome = true := by
  unfold createSandbox at *
  split_ifs at * <;> simp_all

/-- A prior state holding a live session and a tracked file. -/
def gPrior : SandboxGlobals := ⟨some (.real "old"), some ["src/App.jsx"]⟩

/-- A create call taking the demo path (`DEMO_MODE` set). -/
def envDemoC2 : CreateEnv :=
  ⟨true, false, true, true, false, false, false, false, false, false, "t1"⟩

/-- A provider-path create call whose setup script fails. -/
def envSetupFail : CreateEnv :=
  ⟨false, false, true, true, false, true, false, false, false, false, "t2"⟩

/-- A provider-path create call in which every step succeeds. -/
def envProviderC2 : CreateEnv :=
  ⟨false, false, true, true, false, false, false, false, false, false, "t0"⟩

/-- C2 counterexample: a demo-path create over an existing live session
attempts no kill and performs no tracker reset, and a create failing at the
setup script leaves zero sessions — against the claimed exactly-one kill
attempt on every create and exactly one remaining session after any
sequence of creates. -/
theorem c2_counterexample :
    (createSandbox envDemoC2 gPrior).2.2.priorKillAttempts = 0
    ∧ (createSandbox envDemoC2 gPrior).2.2.trackerCleared = false
    ∧ (createSandbox envSetupFail gPrior).2.1.activeSandbox = none := by
  refine ⟨rfl, rfl, rfl⟩

/-- C2 amended: on the provider path (valid key, not demo) a prior
session's kill is attempted exactly once and the file tracker is reset; a
demo-path create replaces the prior session without a kill attempt or
tracker reset and leaves the demo session installed; a kill failure never
changes the outcome; and after any sequence of create calls that each end
in a success or demo response, exactly one session remains in the single
global slot. -/
theorem c2_session_lifecycle_amended :
    (∀ (env : CreateEnv) (g : SandboxGlobals),
       (env.demoMode || !env.hasApiKey || env.netlify) = false →
       env.keyValid = true → g.activeSandbox.isSome = true →
       (createSandbox env g).2.2.priorKillAttempts = 1
       ∧ (createSandbox env g).2.2.trackerCleared = true)
    ∧ (∀ (env : CreateEnv) (g : SandboxGlobals),
       (env.demoMode || !env.hasApiKey || env.netlify) = true →
       (createSandbox env g).2.2.priorKillAttempts = 0
       ∧ (createSandbox env g).2.2.trackerCleared = false
       ∧ (createSandbox env g).2.1.activeSandbox = some (.demo ("demo-" ++ env.newId)))
    ∧ (∀ (env : CreateEnv) (g : SandboxGlobals),
       createSandbox { env with killFails := true } g =
         createSandbox { env with killFails := false } g)
    ∧ (∀ (envs : List CreateEnv) (g : SandboxGlobals), envs ≠ [] →
       (∀ r ∈ (runCreates envs g).2, r = .okCreated ∨ r = .demoJson true) →
       (runCreates envs g).1.activeSandbox.isSome = true) := by
  refine ⟨?_, ?_, ?_, ?_⟩
  · intro env g hd hk hs
    unfold createSandbox
    split_ifs <;> simp_all
  · intro env g hd
    simp [createSandbox, hd]
  · intro env g
    rfl
  · intro envs
    induction envs with
    | nil => intro g h; exact absurd rfl h
    | cons e es ih =>
      intro g _ hall
      by_cases hne : es = []
      · subst hne
        have h1 := hall (createSandbox e g).1 (by simp [runCreates])
        simp only [runCreates]
        exact createSandbox_live_or_demo e g h1
      · simp only [runCreates]
        exact ih (createSandbox e g).2.1 hne (fun r hr =>
          hall r (by simp only [runCreates, List.mem_cons]; exact Or.inr hr))

/-- C2 witness: the amended lifecycle at concrete calls — a provider-path
create over a prior session, a demo-path create over a prior session, kill
failure insensitivity, and a two-call sequence. -/
theorem c2_session_lifecycle_amended_witness :
    ((createSandbox envProviderC2 gPrior).2.2.priorKillAttempts = 1
      ∧ (createSandbox envProviderC2 gPrior).2.2.trackerCleared = true)
    ∧ ((createSandbox envDemoC2 gPrior).2.2.priorKillAttempts = 0
      ∧ (createSandbox envDemoC2 gPrior).2.2.trackerCleared = false
      ∧ (createSandbox envDemoC2 gPrior).2.1.activeSandbox
          = some (.demo ("demo-" ++ envDemoC2.newId)))
    ∧ createSandbox { envDemoC2 with killFails := true } gPrior =
        createSandbox { envDemoC2 with killFails := false } gPrior
    ∧ (runCreates [envProviderC2, envDemoC2] gPrior).1.activeSandbox.isSome = true :=
  ⟨c2_session_lifecycle_amended.1 envProviderC2 gPrior (by decide) (by decide)
      (by decide),
   c2_session_lifecycle_amended.2.1 envDemoC2 gPrior (by decide),
   c2_session_lifecycle_amended.2.2.1 envDemoC2 gPrior,
   c2_session_lifecycle_amended.2.2.2 [envProviderC2, envDemoC2] gPrior
     (by decide) (by decide)⟩

/-- A create call with the provider credential absent. -/
def envNoKey : CreateEnv :=
  ⟨false, false, false, true, false, false, false, false, false, false, "n1"⟩

/-- A provider-path create call whose environment creation fails. -/
def envE2bFail : CreateEnv :=
  ⟨false, false, true, true, true, false, false, false, false, false, "n2"⟩

/-- C3: with the provider unavailable — a missing credential, or an
environment-creation failure on the provider path — create returns the
demo JSON response (`isDemo = true`) with a demo-tagged session installed;
`createSandbox` is a total function, so the provider error is never raised
to the caller. -/
theorem c3_demo_fallback :
    (∀ (env : CreateEnv) (g : SandboxGlobals), env.hasApiKey = false →
       (createSandbox env g).1 = .demoJson true
       ∧ (createSandbox env g).2.1.activeSandbox.map Sess.demoTag = some true)
    ∧ (∀ (env : CreateEnv) (g : SandboxGlobals),
       (env.demoMode || !env.hasApiKey || env.netlify) = false →
       env.keyValid = true → env.e2bFails = true →
       (createSandbox env g).1 = .demoJson true
       ∧ (createSandbox env g).2.1.activeSandbox.map Sess.demoTag = some true) := by
  constructor
  · intro env g hk
    unfold createSandbox
    simp [hk, Sess.demoTag]
  · intro env g hd hk he
    unfold createSandbox
    simp [hd, hk, he, Sess.demoTag]

/-- C3 witness: a missing-credential call and a creation-failure call both
return the demo response over an empty state. -/
theorem c3_demo_fallback_witness :
    ((createSandbox envNoKey ⟨none, none⟩).1 = .demoJson true
      ∧ (createSandbox envNoKey ⟨none, none⟩).2.1.activeSandbox.map Sess.demoTag
          = some true)
    ∧ ((createSandbox envE2bFail ⟨none, none⟩).1 = .demoJson true
      ∧ (createSandbox envE2bFail ⟨none, none⟩).2.1.activeSandbox.map Sess.demoTag
          = some true) :=
  ⟨c3_demo_fallback.1 envNoKey ⟨none, none⟩ (by decide),
   c3_demo_fallback.2 envE2bFail ⟨none, none⟩ (by decide) (by decide) (by decide)⟩

/-- A provider-path create call in which only the CSS-rebuild nudge fails. -/
def envNudge : CreateEnv :=
  ⟨false, false, true, true, false, false, false, false, true, false, "t3"⟩

/-- C7 counterexample: a create call in which setup, dependency install and
Vite start all succeed but the stylesheet-rebuild nudge fails does not
return success — the nudge is not best-effort, its failure fails the
call. -/
theorem c7_counterexample :
    (createSandbox envNudge ⟨none, none⟩).1 = .errCreationFailed
    ∧ (createSandbox envNudge ⟨none, none⟩).1 ≠ .okCreated := by
  constructor <;> decide

/-- C7 amended: on the provider path, setup-script failure is fatal — the
new environment is killed and the call fails with the setup error;
dependency-install and Vite-start failures are best-effort (the call still
succeeds whatever their flags); but a stylesheet-rebuild-nudge failure is
caught only by the route's outer handler: the environment is killed and
the call fails with the creation error. -/
theorem c7_bootstrap_amended (env : CreateEnv) (g : SandboxGlobals)
    (hpath : (env.demoMode || !env.hasApiKey || env.netlify) = false)
    (hkey : env.keyValid = true) (he2b : env.e2bFails = false) :
    (env.setupFails = true →
       (createSandbox env g).1 = .errSetupFailed
       ∧ (createSandbox env g).2.2.newKillAttempted = true
       ∧ (createSandbox env g).2.1.activeSandbox = none)
    ∧ (env.setupFails = false → env.nudgeFails = false →
       (createSandbox env g).1 = .okCreated)
    ∧ (env.setupFails = false → env.nudgeFails = true →
       (createSandbox env g).1 = .errCreationFailed
       ∧ (createSandbox env g).2.2.newKillAttempted = true
       ∧ (createSandbox env g).2.1.activeSandbox = none) := by
  unfold createSandbox
  refine ⟨?_, ?_, ?_⟩
  · intro hs
    simp [hpath, hkey, he2b, hs]
  · intro hs hn
    simp [hpath, hkey, he2b, hs, hn]
  · intro hs hn
    simp [hpath, hkey, he2b, hs, hn]

/-- C7 witness: the nudge-failing call fails with the creation error, kills
the environment, and leaves no session. -/
theorem c7_bootstrap_amended_witness :
    (createSandbox envNudge ⟨none, none⟩).1 = .errCreationFailed
    ∧ (createSandbox envNudge ⟨none, none⟩).2.2.newKillAttempted = true
    ∧ (createSandbox envNudge ⟨none, none⟩).2.1.activeSandbox = none :=
  (c7_bootstrap_amended envNudge ⟨none, none⟩ (by decide) (by decide)
    (by decide)).2.2 rfl rfl
